import Mathlib

/-!
Shallow embedding of the `br_document_validator` crate: validation of
Brazilian CPF and CNPJ taxpayer document numbers.

Strings are modelled as `List Char`; the length dispatch in the source uses
Rust's `str::len`, which is a UTF-8 byte count, so we model it by `byteLen`
(summing `Char.utf8Size`).  Machine integers (`u32`) never exceed a few
thousand in this code, so they are modelled by `Nat`.  Fallible Rust code
(`Result`, `Option`) is modelled by `Except` / `Option`.
-/

namespace BrDoc

/-- Model of `ErrorKind` from `src/document_number.rs` (same shape in `src/lib.rs`). -/
inductive ErrorKind where
  /-- The input string had invalid characters. -/
  | InvalidCharacters
  /-- The document had a valid format but did not pass validation. -/
  | InvalidDocument
  /-- The input was not valid; validation did not even start. -/
  | InvalidInput
deriving DecidableEq, Repr

/-- Rust `str::len`: the UTF-8 byte count of the string. -/
def byteLen (cs : List Char) : Nat := (cs.map Char.utf8Size).sum

/-- Rust `char::to_digit(10)`: `some` of the numeric value for ASCII `'0'..'9'`,
`none` for every other character. -/
def toDigit (c : Char) : Option Nat :=
  if c.isDigit then some (c.toNat - 48) else none

/-- Model of `to_integer_vector` (strict mode, `map_while`): map characters to digit
values, stopping at the first non-digit. -/
def to_integer_vector (cs : List Char) : List Nat :=
  match cs with
  | [] => []
  | c :: rest =>
    match toDigit c with
    | some d => d :: to_integer_vector rest
    | none => []

/-- Model of `to_integer_vector_sanitizing` (`filter_map`): keep digit values, discard
every non-digit character. -/
def to_integer_vector_sanitizing (cs : List Char) : List Nat :=
  cs.filterMap toDigit

/-- Model of `all_equal` from `src/document_number.rs` (same code in `src/lib.rs`):
`try_fold` over `n[1..]` carrying `n[0]`, `Some` iff all elements are equal.
The source indexes `n[0]` and slices `n[1..]`, which panics on an empty
vector; this total version returns `true` on `[]` and `all_equal_checked`
below models the panic.  Every call site passes a non-empty vector
(see `evaluate_checked_eq`). -/
def all_equal (n : List Nat) : Bool :=
  match n with
  | [] => true
  | x :: xs =>
    (xs.foldl
      (fun acc el =>
        match acc with
        | some prev => if prev = el then some el else none
        | none => none)
      (some x)).isSome

/-- Panic-aware `all_equal`: `none` models the `n[0]` panic on an empty vector. -/
def all_equal_checked (n : List Nat) : Option Bool :=
  match n with
  | [] => none
  | _ :: _ => some (all_equal n)

/-- Model of `check_digits` from `src/document_number.rs`. -/
def check_digits (actual_first_digit actual_second_digit
    expected_first_digit expected_second_digit : Nat) : Bool :=
  actual_first_digit = expected_first_digit &&
    actual_second_digit = expected_second_digit

/-- Inner `digit_calculation` of `validate_cpf`: state is
`(running sum, current weight)`; each digit adds `weight * digit` and
decrements the weight. -/
def digit_calculation (t : Nat × Nat) (curr : Nat) : Nat × Nat :=
  (t.1 + t.2 * curr, t.2 - 1)

/-- Inner `ten_to_zero` of `validate_cpf`: map the value 10 to 0. -/
def ten_to_zero (n : Nat) : Nat :=
  if n = 10 then 0 else n

/-- Model of `validate_cpf` from `src/document_number.rs`.  The source slices
`numbers[..9]` and indexes `numbers[len-2]`, `numbers[len-1]`; here `take`
and `getD` are total and `validate_cpf_checked` models the panics. -/
def validate_cpf (numbers : List Nat) : Except ErrorKind Unit :=
  let first_nine_digits := numbers.take 9
  let first_digit :=
    ten_to_zero ((first_nine_digits.foldl digit_calculation (0, 10)).1 * 10 % 11)
  let p := first_nine_digits.foldl digit_calculation (0, 11)
  let second_digit := ten_to_zero ((p.1 + first_digit * p.2) * 10 % 11)
  if check_digits (numbers.getD (numbers.length - 2) 0)
      (numbers.getD (numbers.length - 1) 0) first_digit second_digit then
    .ok ()
  else
    .error .InvalidDocument

/-- Panic-aware `validate_cpf`: `none` models the panic of the slice
`numbers[..9]` (needs length ≥ 9) or of `numbers[len-2]` (needs length ≥ 2). -/
def validate_cpf_checked (numbers : List Nat) : Option (Except ErrorKind Unit) :=
  if 9 ≤ numbers.length ∧ 2 ≤ numbers.length then some (validate_cpf numbers)
  else none

/-- Model of `CNPJ_POSITIONAL_WEIGHTS` from `src/document_number.rs`. -/
def CNPJ_POSITIONAL_WEIGHTS : List Nat := [6, 5, 4, 3, 2, 9, 8, 7, 6, 5, 4, 3, 2]

/-- Inner `calculate_digit` of `validate_cnpj`. -/
def calculate_digit (subject : Nat) : Nat :=
  if subject % 11 < 2 then 0 else 11 - subject % 11

/-- Model of `validate_cnpj` from `src/document_number.rs`.  The source slices
`numbers[..12]` and indexes `numbers[len-2]`, `numbers[len-1]`; here `take`
and `getD` are total and `validate_cnpj_checked` models the panics. -/
def validate_cnpj (numbers : List Nat) : Except ErrorKind Unit :=
  let first_twelve_digits := numbers.take 12
  let first_zipped_sum :=
    ((first_twelve_digits.zip (CNPJ_POSITIONAL_WEIGHTS.drop 1)).map
      (fun t => t.1 * t.2)).sum
  let first_digit := calculate_digit first_zipped_sum
  let second_zipped_sum :=
    (((first_twelve_digits ++ [first_digit]).zip CNPJ_POSITIONAL_WEIGHTS).map
      (fun t => t.1 * t.2)).sum
  let second_digit := calculate_digit second_zipped_sum
  if check_digits (numbers.getD (numbers.length - 2) 0)
      (numbers.getD (numbers.length - 1) 0) first_digit second_digit then
    .ok ()
  else
    .error .InvalidDocument

/-- Panic-aware `validate_cnpj`: `none` models the panic of the slice
`numbers[..12]` or of `numbers[len-2]`. -/
def validate_cnpj_checked (numbers : List Nat) : Option (Except ErrorKind Unit) :=
  if 12 ≤ numbers.length ∧ 2 ≤ numbers.length then some (validate_cnpj numbers)
  else none

/-- One item of a literal regex mask: a digit class `\d` or a literal character. -/
inductive MaskItem where
  | digit
  | lit (c : Char)

/-- Anchored match of a literal mask against the whole string, as the
`^...$` regexes of the source do. -/
def matchesMask : List MaskItem → List Char → Bool
  | [], [] => true
  | .digit :: ps, c :: cs => c.isDigit && matchesMask ps cs
  | .lit l :: ps, c :: cs => (c = l) && matchesMask ps cs
  | _, _ => false

/-- Model of `CPF_MASK`: the regex `^\d\x7b3\x7d[.]\d\x7b3\x7d[.]\d\x7b3\x7d[-]\d\x7b2\x7d$`. -/
def CPF_MASK : List MaskItem :=
  [.digit, .digit, .digit, .lit '.', .digit, .digit, .digit, .lit '.',
   .digit, .digit, .digit, .lit '-', .digit, .digit]

/-- Model of `CNPJ_MASK`: the regex `^\d\x7b2\x7d[.]\d\x7b3\x7d[.]\d\x7b3\x7d[\/]\d\x7b4\x7d[-]\d\x7b2\x7d$`. -/
def CNPJ_MASK : List MaskItem :=
  [.digit, .digit, .lit '.', .digit, .digit, .digit, .lit '.',
   .digit, .digit, .digit, .lit '/', .digit, .digit, .digit, .digit,
   .lit '-', .digit, .digit]

/-- Number of `\d` items in a mask. -/
def maskDigitCount : List MaskItem → Nat
  | [] => 0
  | .digit :: ps => maskDigitCount ps + 1
  | .lit _ :: ps => maskDigitCount ps

/-- Every literal item of the mask is a non-digit character. -/
def maskLitsNonDigit : List MaskItem → Bool
  | [] => true
  | .digit :: ps => maskLitsNonDigit ps
  | .lit c :: ps => !c.isDigit && maskLitsNonDigit ps

def SANITIZED_CPF_SIZE : Nat := 11
def FORMATTED_CPF_AND_SANITIZED_CNPJ_SIZE : Nat := 14
def FORMATTED_CNPJ_SIZE : Nat := 18

/-- Model of `DocumentNumber::evaluate` from `src/document_number.rs`: length dispatch
on the byte count, then per-branch character/mask checks, uniformity check
(on the CPF branches) and checksum.  Returns the digit vector on success. -/
def evaluate (input : List Char) : Except ErrorKind (List Nat) :=
  if byteLen input = SANITIZED_CPF_SIZE then
    let n := to_integer_vector input
    if n.length = SANITIZED_CPF_SIZE ∧ all_equal n = false then
      (validate_cpf n).map (fun _ => n)
    else if ¬ n.length = SANITIZED_CPF_SIZE then .error .InvalidCharacters
    else .error .InvalidDocument
  else if byteLen input = FORMATTED_CPF_AND_SANITIZED_CNPJ_SIZE then
    if matchesMask CPF_MASK input then
      let n := to_integer_vector_sanitizing input
      if all_equal n = false then (validate_cpf n).map (fun _ => n)
      else .error .InvalidDocument
    else
      let n := to_integer_vector input
      if n.length = FORMATTED_CPF_AND_SANITIZED_CNPJ_SIZE then
        (validate_cnpj n).map (fun _ => n)
      else .error .InvalidCharacters
  else if byteLen input = FORMATTED_CNPJ_SIZE then
    if matchesMask CNPJ_MASK input then
      let n := to_integer_vector_sanitizing input
      if n.length = FORMATTED_CPF_AND_SANITIZED_CNPJ_SIZE then
        (validate_cnpj n).map (fun _ => n)
      else .error .InvalidCharacters
    else .error .InvalidCharacters
  else .error .InvalidInput

/-- Model of `numbers_to_string`: each digit value back to its ASCII character.  The
source unwraps `char::from_digit`, which panics for values ≥ 10;
`numbers_to_string_checked` models that panic. -/
def numbers_to_string (n : List Nat) : List Char :=
  n.map (fun d => Char.ofNat (d + 48))

/-- Panic-aware `numbers_to_string`: `none` models the `unwrap` panic when a
value is not a digit value. -/
def numbers_to_string_checked (n : List Nat) : Option (List Char) :=
  if ∀ d ∈ n, d < 10 then some (numbers_to_string n) else none

/-- Model of `DocumentNumber` from `src/document_number.rs`: `CPF`/`CNPJ` wrapping the
canonical digit string (`CPFDocument` / `CNPJDocument` newtypes inlined). -/
inductive DocumentNumber where
  | CPF (s : List Char)
  | CNPJ (s : List Char)
deriving DecidableEq, Repr

/-- Model of `DocumentNumber::parse`. -/
def parse (input : List Char) : Except ErrorKind DocumentNumber :=
  match evaluate input with
  | .error e => .error e
  | .ok n =>
    if n.length = SANITIZED_CPF_SIZE then .ok (.CPF (numbers_to_string n))
    else .ok (.CNPJ (numbers_to_string n))

/-- Model of `DocumentNumber::validate`. -/
def validate (input : List Char) : Except ErrorKind Unit :=
  (evaluate input).map (fun _ => ())

/-- The `Display` implementations: both variants print the wrapped string. -/
def toText : DocumentNumber → List Char
  | .CPF s => s
  | .CNPJ s => s

/-- The lengths `evaluate` dispatches on (11, 14 or 18 bytes). -/
def recognized_length (cs : List Char) : Bool :=
  byteLen cs = SANITIZED_CPF_SIZE ||
    byteLen cs = FORMATTED_CPF_AND_SANITIZED_CNPJ_SIZE ||
    byteLen cs = FORMATTED_CNPJ_SIZE

/-- The character/mask stage of `evaluate`, per recognized length: for 11
bytes all characters must be digits, for 14 bytes the CPF mask must match or
all characters must be digits, for 18 bytes the CNPJ mask must match. -/
def chars_ok (cs : List Char) : Bool :=
  if byteLen cs = SANITIZED_CPF_SIZE then
    (to_integer_vector cs).length = SANITIZED_CPF_SIZE
  else if byteLen cs = FORMATTED_CPF_AND_SANITIZED_CNPJ_SIZE then
    matchesMask CPF_MASK cs ||
      (to_integer_vector cs).length = FORMATTED_CPF_AND_SANITIZED_CNPJ_SIZE
  else if byteLen cs = FORMATTED_CNPJ_SIZE then
    matchesMask CNPJ_MASK cs
  else false

/-- Panic-aware `evaluate`: every partial operation of the source
(`all_equal`'s `n[0]`, the checksum validators' slices and indexing) goes
through its `_checked` variant; `none` models a panic.  The `&&` in the
source's first guard short-circuits, so `all_equal` runs only after the
length test succeeded, which this definition mirrors. -/
def evaluate_checked (input : List Char) : Option (Except ErrorKind (List Nat)) :=
  if byteLen input = SANITIZED_CPF_SIZE then
    let n := to_integer_vector input
    if n.length = SANITIZED_CPF_SIZE then
      match all_equal_checked n with
      | none => none
      | some ae =>
        if ae = false then (validate_cpf_checked n).map (Except.map (fun _ => n))
        else some (.error .InvalidDocument)
    else some (.error .InvalidCharacters)
  else if byteLen input = FORMATTED_CPF_AND_SANITIZED_CNPJ_SIZE then
    if matchesMask CPF_MASK input then
      let n := to_integer_vector_sanitizing input
      match all_equal_checked n with
      | none => none
      | some ae =>
        if ae = false then (validate_cpf_checked n).map (Except.map (fun _ => n))
        else some (.error .InvalidDocument)
    else
      let n := to_integer_vector input
      if n.length = FORMATTED_CPF_AND_SANITIZED_CNPJ_SIZE then
        (validate_cnpj_checked n).map (Except.map (fun _ => n))
      else some (.error .InvalidCharacters)
  else if byteLen input = FORMATTED_CNPJ_SIZE then
    if matchesMask CNPJ_MASK input then
      let n := to_integer_vector_sanitizing input
      if n.length = FORMATTED_CPF_AND_SANITIZED_CNPJ_SIZE then
        (validate_cnpj_checked n).map (Except.map (fun _ => n))
      else some (.error .InvalidCharacters)
    else some (.error .InvalidCharacters)
  else some (.error .InvalidInput)

/-- Panic-aware `parse`: additionally routes `numbers_to_string` through its
`_checked` variant (the `unwrap` on `char::from_digit`). -/
def parse_checked (input : List Char) : Option (Except ErrorKind DocumentNumber) :=
  match evaluate_checked input with
  | none => none
  | some (.error e) => some (.error e)
  | some (.ok n) =>
    match numbers_to_string_checked n with
    | none => none
    | some s =>
      if n.length = SANITIZED_CPF_SIZE then some (.ok (.CPF s))
      else some (.ok (.CNPJ s))

end BrDoc

namespace Cpf

open BrDoc (ErrorKind digit_calculation ten_to_zero)

/-- Model of `validate_cpf` from `src/cpf.rs` (the duplicated split implementation):
`None` means valid, `Some` carries the error. -/
def validate_cpf (numbers : List Nat) : Option ErrorKind :=
  let first_nine_digits := numbers.take 9
  let first_digit :=
    ten_to_zero ((first_nine_digits.foldl digit_calculation (0, 10)).1 * 10 % 11)
  let p := first_nine_digits.foldl digit_calculation (0, 11)
  let second_digit := ten_to_zero ((p.1 + first_digit * p.2) * 10 % 11)
  if numbers.getD (numbers.length - 2) 0 = first_digit ∧
      numbers.getD (numbers.length - 1) 0 = second_digit then
    none
  else
    some .InvalidDocument

end Cpf

namespace Cnpj

open BrDoc (ErrorKind CNPJ_POSITIONAL_WEIGHTS calculate_digit)

/-- Model of `validate_cnpj` from `src/cnpj.rs` (the duplicated split implementation):
`None` means valid, `Some` carries the error. -/
def validate_cnpj (numbers : List Nat) : Option ErrorKind :=
  let first_twelve_digits := numbers.take 12
  let first_zipped_sum :=
    ((first_twelve_digits.zip (CNPJ_POSITIONAL_WEIGHTS.drop 1)).map
      (fun t => t.1 * t.2)).sum
  let first_digit := calculate_digit first_zipped_sum
  let second_zipped_sum :=
    (((first_twelve_digits ++ [first_digit]).zip CNPJ_POSITIONAL_WEIGHTS).map
      (fun t => t.1 * t.2)).sum
  let second_digit := calculate_digit second_zipped_sum
  if numbers.getD (numbers.length - 2) 0 = first_digit ∧
      numbers.getD (numbers.length - 1) 0 = second_digit then
    none
  else
    some .InvalidDocument

end Cnpj

namespace BrDoc

/-! ### Helper lemmas about characters and digit extraction -/

theorem isDigit_toNat_bounds {c : Char} (h : c.isDigit = true) :
    48 ≤ c.toNat ∧ c.toNat ≤ 57 := by
  simp [Char.isDigit] at h
  exact ⟨UInt32.le_toNat_of_le (by decide) h.1, UInt32.toNat_le_of_le (by decide) h.2⟩

theorem digit_char_roundtrip {c : Char} (h : c.isDigit = true) :
    Char.ofNat (c.toNat - 48 + 48) = c := by
  rw [Nat.sub_add_cancel (isDigit_toNat_bounds h).1, Char.ofNat_toNat]

theorem toDigit_isSome_iff {c : Char} : (toDigit c).isSome = true ↔ c.isDigit = true := by
  simp only [toDigit]
  split <;> simp_all

theorem toDigit_lt_ten {c : Char} {d : Nat} (h : toDigit c = some d) : d < 10 := by
  simp only [toDigit] at h
  split at h
  · have := isDigit_toNat_bounds (by assumption)
    cases h
    omega
  · exact absurd h (by simp)

theorem to_integer_vector_length_le (cs : List Char) :
    (to_integer_vector cs).length ≤ cs.length := by
  induction cs with
  | nil => simp [to_integer_vector]
  | cons c cs ih =>
    simp only [to_integer_vector]
    cases toDigit c
    · simp
    · simp
      omega

theorem byteLen_ge_length (cs : List Char) : cs.length ≤ byteLen cs := by
  induction cs with
  | nil => simp [byteLen]
  | cons c cs ih =>
    have := c.utf8Size_pos
    simp only [byteLen, List.map_cons, List.sum_cons, List.length_cons] at *
    omega

theorem sanitize_roundtrip (cs : List Char) :
    numbers_to_string (to_integer_vector_sanitizing cs) =
      cs.filter (fun c => c.isDigit) := by
  induction cs with
  | nil => rfl
  | cons c cs ih =>
    simp only [to_integer_vector_sanitizing, List.filterMap_cons, List.filter_cons]
    rcases hd : c.isDigit with _ | _
    · have : toDigit c = none := by simp [toDigit, hd]
      simpa [this, to_integer_vector_sanitizing] using ih
    · have : toDigit c = some (c.toNat - 48) := by simp [toDigit, hd]
      simp only [this, numbers_to_string, List.map_cons, if_pos rfl]
      rw [digit_char_roundtrip hd]
      simpa [numbers_to_string, to_integer_vector_sanitizing] using ih

theorem strict_full {cs : List Char}
    (h : (to_integer_vector cs).length = cs.length) :
    to_integer_vector cs = to_integer_vector_sanitizing cs ∧
      cs.filter (fun c => c.isDigit) = cs := by
  induction cs with
  | nil => simp [to_integer_vector, to_integer_vector_sanitizing]
  | cons c cs ih =>
    simp only [to_integer_vector, List.length_cons] at h
    rcases hc : toDigit c with _ | d
    · rw [hc] at h
      simp at h
    · rw [hc] at h
      simp only [List.length_cons, Nat.succ_inj] at h
      obtain ⟨h1, h2⟩ := ih h
      have hd : c.isDigit = true := by
        have : (toDigit c).isSome = true := by simp [hc]
        exact toDigit_isSome_iff.mp this
      refine ⟨?_, ?_⟩
      · simp only [to_integer_vector, to_integer_vector_sanitizing,
          List.filterMap_cons, hc]
        simpa [to_integer_vector_sanitizing] using h1
      · simp [List.filter_cons, hd, h2]

theorem strict_roundtrip {cs : List Char}
    (h : (to_integer_vector cs).length = cs.length) :
    numbers_to_string (to_integer_vector cs) = cs.filter (fun c => c.isDigit) := by
  rw [(strict_full h).1, sanitize_roundtrip]

theorem strict_lt_of_nondigit {cs : List Char}
    (h : ∃ c ∈ cs, c.isDigit = false) :
    (to_integer_vector cs).length < cs.length := by
  rcases Nat.lt_or_ge (to_integer_vector cs).length cs.length with hlt | hge
  · exact hlt
  · exfalso
    have heq : (to_integer_vector cs).length = cs.length :=
      Nat.le_antisymm (to_integer_vector_length_le cs) hge
    obtain ⟨c, hc, hcd⟩ := h
    have hfilter := (strict_full heq).2
    have : c.isDigit = true := by
      have hmem : c ∈ cs.filter (fun c => c.isDigit) := by rw [hfilter]; exact hc
      exact (List.mem_filter.mp hmem).2
    simp [this] at hcd

theorem strict_digits_lt_ten {cs : List Char} {d : Nat}
    (h : d ∈ to_integer_vector cs) : d < 10 := by
  induction cs with
  | nil => simp [to_integer_vector] at h
  | cons c cs ih =>
    simp only [to_integer_vector] at h
    rcases hc : toDigit c with _ | v
    · rw [hc] at h; simp at h
    · rw [hc] at h
      rcases List.mem_cons.mp h with rfl | hmem
      · exact toDigit_lt_ten hc
      · exact ih hmem

theorem sanitize_digits_lt_ten {cs : List Char} {d : Nat}
    (h : d ∈ to_integer_vector_sanitizing cs) : d < 10 := by
  simp only [to_integer_vector_sanitizing, List.mem_filterMap] at h
  obtain ⟨c, _, hc⟩ := h
  exact toDigit_lt_ten hc

end BrDoc

namespace BrDoc

/-! ### Mask lemmas -/

theorem sanitize_length_of_mask :
    ∀ (ps : List MaskItem) (cs : List Char),
      maskLitsNonDigit ps = true → matchesMask ps cs = true →
      (to_integer_vector_sanitizing cs).length = maskDigitCount ps := by
  intro ps
  induction ps with
  | nil =>
    intro cs _ hm
    cases cs <;> simp_all [matchesMask, to_integer_vector_sanitizing, maskDigitCount]
  | cons p ps ih =>
    intro cs hl hm
    cases p with
    | digit =>
      cases cs with
      | nil => simp [matchesMask] at hm
      | cons c cs =>
        simp only [matchesMask, Bool.and_eq_true] at hm
        have hsome : toDigit c = some (c.toNat - 48) := by simp [toDigit, hm.1]
        simp only [to_integer_vector_sanitizing, List.filterMap_cons, hsome,
          List.length_cons, maskDigitCount]
        have := ih cs (by simpa [maskLitsNonDigit] using hl) hm.2
        simpa [to_integer_vector_sanitizing] using this
    | lit l =>
      cases cs with
      | nil => simp [matchesMask] at hm
      | cons c cs =>
        simp only [matchesMask, Bool.and_eq_true, decide_eq_true_eq] at hm
        simp only [maskLitsNonDigit, Bool.and_eq_true, Bool.not_eq_true'] at hl
        have hnd : c.isDigit = false := hm.1 ▸ hl.1
        have hnone : toDigit c = none := by simp [toDigit, hnd]
        simp only [to_integer_vector_sanitizing, List.filterMap_cons, hnone,
          maskDigitCount]
        have := ih cs hl.2 hm.2
        simpa [to_integer_vector_sanitizing] using this

theorem cpf_mask_sanitize_length {cs : List Char}
    (hm : matchesMask CPF_MASK cs = true) :
    (to_integer_vector_sanitizing cs).length = 11 :=
  sanitize_length_of_mask CPF_MASK cs (by decide) hm

theorem cnpj_mask_sanitize_length {cs : List Char}
    (hm : matchesMask CNPJ_MASK cs = true) :
    (to_integer_vector_sanitizing cs).length = 14 :=
  sanitize_length_of_mask CNPJ_MASK cs (by decide) hm

end BrDoc

namespace BrDoc

/-! ### Shape of successful evaluation -/

theorem validate_cpf_cases (n : List Nat) :
    validate_cpf n = .ok () ∨ validate_cpf n = .error .InvalidDocument := by
  simp only [validate_cpf]
  split
  · exact Or.inl rfl
  · exact Or.inr rfl

theorem validate_cnpj_cases (n : List Nat) :
    validate_cnpj n = .ok () ∨ validate_cnpj n = .error .InvalidDocument := by
  simp only [validate_cnpj]
  split
  · exact Or.inl rfl
  · exact Or.inr rfl

theorem map_eq_ok {f : Unit → List Nat} {e : Except ErrorKind Unit} {n : List Nat}
    (h : e.map f = .ok n) : e = .ok () ∧ f () = n := by
  cases e with
  | error err => simp [Except.map] at h
  | ok u => cases u; simpa [Except.map] using h

theorem evaluate_ok_shape {cs : List Char} {n : List Nat}
    (h : evaluate cs = .ok n) :
    numbers_to_string n = cs.filter (fun c => c.isDigit) ∧
      (n.length = 11 ∨ n.length = 14) ∧ ∀ d ∈ n, d < 10 := by
  simp only [evaluate, SANITIZED_CPF_SIZE, FORMATTED_CPF_AND_SANITIZED_CNPJ_SIZE,
    FORMATTED_CNPJ_SIZE] at h
  split_ifs at h with c1 c2 c3 c4 c5 c6 c7 c8 c9 c10
  · -- 11 bytes, all digits, not all equal: strict CPF path
    obtain ⟨-, hn⟩ := map_eq_ok h
    subst hn
    have hlen : (to_integer_vector cs).length = cs.length := by
      have h1 := to_integer_vector_length_le cs
      have h2 := byteLen_ge_length cs
      omega
    exact ⟨strict_roundtrip hlen, Or.inl c2.1,
      fun d hd => strict_digits_lt_ten hd⟩
  · -- 14 bytes, CPF mask: sanitizing path
    obtain ⟨-, hn⟩ := map_eq_ok h
    subst hn
    exact ⟨sanitize_roundtrip cs, Or.inl (cpf_mask_sanitize_length c5),
      fun d hd => sanitize_digits_lt_ten hd⟩
  · -- 14 bytes, no mask, all digits: sanitized CNPJ path
    obtain ⟨-, hn⟩ := map_eq_ok h
    subst hn
    have hlen : (to_integer_vector cs).length = cs.length := by
      have h1 := to_integer_vector_length_le cs
      have h2 := byteLen_ge_length cs
      omega
    exact ⟨strict_roundtrip hlen, Or.inr c7,
      fun d hd => strict_digits_lt_ten hd⟩
  · -- 18 bytes, CNPJ mask: sanitizing path
    obtain ⟨-, hn⟩ := map_eq_ok h
    subst hn
    exact ⟨sanitize_roundtrip cs, Or.inr c10,
      fun d hd => sanitize_digits_lt_ten hd⟩

end BrDoc

namespace BrDoc

/-! ### Claim theorems -/

/-- C1: the claim says every all-equal-digit input of valid document length
is rejected with `InvalidDocument`, the uniformity check running on every
family's path before any checksum.  The code has no uniformity check on the
CNPJ paths of `evaluate`, and the all-zero 14-digit input (sanitized or
formatted) passes the CNPJ checksum: `validate` accepts it. -/
theorem c1_all_zero_cnpj_accepted :
    validate (("00000000000000".toList)) = .ok () ∧
    validate (("00.000.000/0000-00".toList)) = .ok () ∧
    all_equal (to_integer_vector (("00000000000000".toList))) = true ∧
    byteLen (("00000000000000".toList)) = 14 :=
  ⟨rfl, rfl, rfl, rfl⟩

/-- C2: for 11 decimal digits that are not all identical, the CPF validator
succeeds iff `d9` is the first check digit (weights 10..2 over `d0..d8`,
times 10, mod 11, 10 mapped to 0) and `d10` is the second check digit
(weights 11..3 over `d0..d8` plus twice the first check digit, times 10,
mod 11, 10 mapped to 0). -/
theorem c2_cpf_checksum_characterization
    (d0 d1 d2 d3 d4 d5 d6 d7 d8 d9 d10 : Nat)
    (_hd : d0 < 10 ∧ d1 < 10 ∧ d2 < 10 ∧ d3 < 10 ∧ d4 < 10 ∧ d5 < 10 ∧
      d6 < 10 ∧ d7 < 10 ∧ d8 < 10 ∧ d9 < 10 ∧ d10 < 10)
    (_hne : all_equal [d0,d1,d2,d3,d4,d5,d6,d7,d8,d9,d10] = false) :
    validate_cpf [d0,d1,d2,d3,d4,d5,d6,d7,d8,d9,d10] = .ok () ↔
      (d9 = ten_to_zero ((d0*10 + d1*9 + d2*8 + d3*7 + d4*6 + d5*5 +
          d6*4 + d7*3 + d8*2) * 10 % 11) ∧
       d10 = ten_to_zero ((d0*11 + d1*10 + d2*9 + d3*8 + d4*7 + d5*6 +
          d6*5 + d7*4 + d8*3 +
          ten_to_zero ((d0*10 + d1*9 + d2*8 + d3*7 + d4*6 + d5*5 +
            d6*4 + d7*3 + d8*2) * 10 % 11) * 2) * 10 % 11)) := by
  simp [validate_cpf, digit_calculation, check_digits, ten_to_zero]
  ring_nf

/-- Witness for C2 at the valid CPF 96865090039. -/
theorem c2_witness :
    validate_cpf [9,6,8,6,5,0,9,0,0,3,9] = .ok () := by
  have h := c2_cpf_checksum_characterization 9 6 8 6 5 0 9 0 0 3 9
    (by decide) (by decide)
  exact h.mpr (by decide)

/-- C3: for 14 decimal digits, the CNPJ validator succeeds iff `d12` is the
check digit of the weighted sum of `d0..d11` with weights
`[5,4,3,2,9,8,7,6,5,4,3,2]` (remainder mod 11 < 2 gives 0, else 11 minus the
remainder) and `d13` is the check digit of the weighted sum of `d0..d11`
followed by the first check digit with weights `[6,5,4,3,2,9,8,7,6,5,4,3,2]`. -/
theorem c3_cnpj_checksum_characterization
    (d0 d1 d2 d3 d4 d5 d6 d7 d8 d9 d10 d11 d12 d13 : Nat)
    (_hd : d0 < 10 ∧ d1 < 10 ∧ d2 < 10 ∧ d3 < 10 ∧ d4 < 10 ∧ d5 < 10 ∧
      d6 < 10 ∧ d7 < 10 ∧ d8 < 10 ∧ d9 < 10 ∧ d10 < 10 ∧ d11 < 10 ∧
      d12 < 10 ∧ d13 < 10) :
    validate_cnpj [d0,d1,d2,d3,d4,d5,d6,d7,d8,d9,d10,d11,d12,d13] = .ok () ↔
      (d12 = calculate_digit (d0*5 + d1*4 + d2*3 + d3*2 + d4*9 + d5*8 +
          d6*7 + d7*6 + d8*5 + d9*4 + d10*3 + d11*2) ∧
       d13 = calculate_digit (d0*6 + d1*5 + d2*4 + d3*3 + d4*2 + d5*9 +
          d6*8 + d7*7 + d8*6 + d9*5 + d10*4 + d11*3 +
          (calculate_digit (d0*5 + d1*4 + d2*3 + d3*2 + d4*9 + d5*8 +
            d6*7 + d7*6 + d8*5 + d9*4 + d10*3 + d11*2)) * 2)) := by
  simp [validate_cnpj, check_digits, CNPJ_POSITIONAL_WEIGHTS]
  ring_nf

/-- Witness for C3 at the valid CNPJ 03165685000114. -/
theorem c3_witness :
    validate_cnpj [0,3,1,6,5,6,8,5,0,0,0,1,1,4] = .ok () := by
  have h := c3_cnpj_checksum_characterization 0 3 1 6 5 6 8 5 0 0 0 1 1 4
    (by decide)
  exact h.mpr (by decide)

/-- C7: the spec's concrete scenarios: a valid formatted CPF, a sanitized
CPF with wrong check digits, and a formatted CNPJ with an invalid character. -/
theorem c7_concrete_scenarios :
    validate (("288.111.210-27".toList)) = .ok () ∧
    validate (("79888245131".toList)) = .error .InvalidDocument ∧
    validate (("66.114.93S/0001-07".toList)) = .error .InvalidCharacters :=
  ⟨rfl, rfl, rfl⟩

end BrDoc

namespace BrDoc

/-- C8: the duplicated checksum implementations agree: the `Option`-returning
validators of `src/cpf.rs` / `src/cnpj.rs` return `None` exactly when the
`Result`-returning ones of `src/document_number.rs` return `Ok(())`, and
`Some(InvalidDocument)` exactly when they return `Err(InvalidDocument)`. -/
theorem c8_split_unified_checksum_equiv (n m : List Nat)
    (_hn : n.length = 11) (_hm : m.length = 14) :
    ((Cpf.validate_cpf n = none ↔ validate_cpf n = .ok ()) ∧
     (Cpf.validate_cpf n = some .InvalidDocument ↔
       validate_cpf n = .error .InvalidDocument)) ∧
    ((Cnpj.validate_cnpj m = none ↔ validate_cnpj m = .ok ()) ∧
     (Cnpj.validate_cnpj m = some .InvalidDocument ↔
       validate_cnpj m = .error .InvalidDocument)) := by
  simp only [Cpf.validate_cpf, validate_cpf, Cnpj.validate_cnpj, validate_cnpj,
    check_digits]
  constructor <;> constructor <;> split_ifs <;> simp_all

/-- Witness for C8 at a valid CPF digit vector and a valid CNPJ digit vector. -/
theorem c8_witness :
    Cpf.validate_cpf [9,6,8,6,5,0,9,0,0,3,9] = none ∧
    Cnpj.validate_cnpj [0,3,1,6,5,6,8,5,0,0,0,1,1,4] = none := by
  have h := c8_split_unified_checksum_equiv [9,6,8,6,5,0,9,0,0,3,9]
    [0,3,1,6,5,6,8,5,0,0,0,1,1,4] (by decide) (by decide)
  exact ⟨h.1.1.mpr (by rfl), h.2.1.mpr (by rfl)⟩

theorem numbers_to_string_length (n : List Nat) :
    (numbers_to_string n).length = n.length := by
  simp [numbers_to_string]

/-- C6: whenever `parse` succeeds, rendering the resulting value yields
exactly the digit-only projection of the input (no punctuation re-added),
of length 11 for a CPF and 14 for a CNPJ. -/
theorem c6_render_digit_projection (cs : List Char) (d : DocumentNumber)
    (h : parse cs = .ok d) :
    toText d = cs.filter (fun c => c.isDigit) ∧
      (∀ s, d = .CPF s → s.length = 11) ∧
      (∀ s, d = .CNPJ s → s.length = 14) := by
  simp only [parse, SANITIZED_CPF_SIZE] at h
  rcases he : evaluate cs with e | n
  · rw [he] at h
    simp at h
  · rw [he] at h
    dsimp only at h
    obtain ⟨hround, hlens, -⟩ := evaluate_ok_shape he
    split_ifs at h with hlen
    · simp only [Except.ok.injEq] at h
      subst h
      refine ⟨hround, ?_, ?_⟩
      · intro s hs
        cases hs
        rw [numbers_to_string_length, hlen]
      · intro s hs
        cases hs
    · simp only [Except.ok.injEq] at h
      subst h
      refine ⟨hround, ?_, ?_⟩
      · intro s hs
        cases hs
      · intro s hs
        cases hs
        rw [numbers_to_string_length]
        rcases hlens with h11 | h14
        · exact absurd h11 hlen
        · exact h14

/-- Witness for C6 at the formatted CPF from the spec's scenarios. -/
theorem c6_witness :
    toText (DocumentNumber.CPF (("28811121027".toList))) =
      (("288.111.210-27".toList)).filter (fun c => c.isDigit) := by
  have h := c6_render_digit_projection (("288.111.210-27".toList))
    (DocumentNumber.CPF (("28811121027".toList))) (by rfl)
  exact h.1

end BrDoc

namespace BrDoc

/-- C4: errors are detected in a fixed priority order: an unrecognized byte
length yields `InvalidInput` regardless of content; a recognized length with
a failing character/mask check yields `InvalidCharacters`; only inputs
passing both reach the uniformity/checksum stage, which can only yield
success or `InvalidDocument`. -/
theorem c4_error_priority (cs : List Char) :
    (recognized_length cs = false → evaluate cs = .error .InvalidInput) ∧
    (recognized_length cs = true → chars_ok cs = false →
      evaluate cs = .error .InvalidCharacters) ∧
    (chars_ok cs = true →
      evaluate cs = .error .InvalidDocument ∨ ∃ n, evaluate cs = .ok n) := by
  refine ⟨?_, ?_, ?_⟩
  · intro hr
    simp only [recognized_length, SANITIZED_CPF_SIZE,
      FORMATTED_CPF_AND_SANITIZED_CNPJ_SIZE, FORMATTED_CNPJ_SIZE,
      Bool.or_eq_false_iff, decide_eq_false_iff_not] at hr
    simp [evaluate, SANITIZED_CPF_SIZE, FORMATTED_CPF_AND_SANITIZED_CNPJ_SIZE,
      FORMATTED_CNPJ_SIZE, hr.1.1, hr.1.2, hr.2]
  · intro hr hc
    by_cases b11 : byteLen cs = 11
    · simp [chars_ok, SANITIZED_CPF_SIZE, b11] at hc
      simp [evaluate, SANITIZED_CPF_SIZE, b11, hc]
    · by_cases b14 : byteLen cs = 14
      · simp [chars_ok, SANITIZED_CPF_SIZE,
          FORMATTED_CPF_AND_SANITIZED_CNPJ_SIZE, b11, b14] at hc
        simp [evaluate, SANITIZED_CPF_SIZE,
          FORMATTED_CPF_AND_SANITIZED_CNPJ_SIZE, b11, b14, hc.1, hc.2]
      · by_cases b18 : byteLen cs = 18
        · simp [chars_ok, SANITIZED_CPF_SIZE,
            FORMATTED_CPF_AND_SANITIZED_CNPJ_SIZE, FORMATTED_CNPJ_SIZE,
            b11, b14, b18] at hc
          simp [evaluate, SANITIZED_CPF_SIZE,
            FORMATTED_CPF_AND_SANITIZED_CNPJ_SIZE, FORMATTED_CNPJ_SIZE,
            b11, b14, b18, hc]
        · simp [recognized_length, SANITIZED_CPF_SIZE,
            FORMATTED_CPF_AND_SANITIZED_CNPJ_SIZE, FORMATTED_CNPJ_SIZE,
            b11, b14, b18] at hr
  · intro hc
    by_cases b11 : byteLen cs = 11
    · simp [chars_ok, SANITIZED_CPF_SIZE, b11] at hc
      rcases hae : all_equal (to_integer_vector cs) with _ | _
      · rcases validate_cpf_cases (to_integer_vector cs) with hv | hv
        · exact Or.inr ⟨to_integer_vector cs, by
            simp [evaluate, SANITIZED_CPF_SIZE, b11, hc, hae, hv, Except.map]⟩
        · exact Or.inl (by
            simp [evaluate, SANITIZED_CPF_SIZE, b11, hc, hae, hv, Except.map])
      · exact Or.inl (by simp [evaluate, SANITIZED_CPF_SIZE, b11, hc, hae])
    · by_cases b14 : byteLen cs = 14
      · simp [chars_ok, SANITIZED_CPF_SIZE,
          FORMATTED_CPF_AND_SANITIZED_CNPJ_SIZE, b11, b14] at hc
        by_cases hm : matchesMask CPF_MASK cs = true
        · rcases hae : all_equal (to_integer_vector_sanitizing cs) with _ | _
          · rcases validate_cpf_cases (to_integer_vector_sanitizing cs) with hv | hv
            · exact Or.inr ⟨to_integer_vector_sanitizing cs, by
                simp [evaluate, SANITIZED_CPF_SIZE,
                  FORMATTED_CPF_AND_SANITIZED_CNPJ_SIZE, b11, b14, hm, hae, hv,
                  Except.map]⟩
            · exact Or.inl (by
                simp [evaluate, SANITIZED_CPF_SIZE,
                  FORMATTED_CPF_AND_SANITIZED_CNPJ_SIZE, b11, b14, hm, hae, hv,
                  Except.map])
          · exact Or.inl (by
              simp [evaluate, SANITIZED_CPF_SIZE,
                FORMATTED_CPF_AND_SANITIZED_CNPJ_SIZE, b11, b14, hm, hae])
        · have hlen : (to_integer_vector cs).length = 14 := by
            rcases hc with hc | hc
            · exact absurd hc hm
            · exact hc
          rcases validate_cnpj_cases (to_integer_vector cs) with hv | hv
          · exact Or.inr ⟨to_integer_vector cs, by
              simp [evaluate, SANITIZED_CPF_SIZE,
                FORMATTED_CPF_AND_SANITIZED_CNPJ_SIZE, b11, b14, hm, hlen, hv,
                Except.map]⟩
          · exact Or.inl (by
              simp [evaluate, SANITIZED_CPF_SIZE,
                FORMATTED_CPF_AND_SANITIZED_CNPJ_SIZE, b11, b14, hm, hlen, hv,
                Except.map])
      · by_cases b18 : byteLen cs = 18
        · simp [chars_ok, SANITIZED_CPF_SIZE,
            FORMATTED_CPF_AND_SANITIZED_CNPJ_SIZE, FORMATTED_CNPJ_SIZE,
            b11, b14, b18] at hc
          have hlen := cnpj_mask_sanitize_length hc
          rcases validate_cnpj_cases (to_integer_vector_sanitizing cs) with hv | hv
          · exact Or.inr ⟨to_integer_vector_sanitizing cs, by
              simp [evaluate, SANITIZED_CPF_SIZE,
                FORMATTED_CPF_AND_SANITIZED_CNPJ_SIZE, FORMATTED_CNPJ_SIZE,
                b11, b14, b18, hc, hlen, hv, Except.map]⟩
          · exact Or.inl (by
              simp [evaluate, SANITIZED_CPF_SIZE,
                FORMATTED_CPF_AND_SANITIZED_CNPJ_SIZE, FORMATTED_CNPJ_SIZE,
                b11, b14, b18, hc, hlen, hv, Except.map])
        · simp [chars_ok, SANITIZED_CPF_SIZE,
            FORMATTED_CPF_AND_SANITIZED_CNPJ_SIZE, FORMATTED_CNPJ_SIZE,
            b11, b14, b18] at hc

end BrDoc

namespace BrDoc

/-- Witness for C4: an unrecognized length (10 bytes), a recognized length
with a bad character, and a recognized all-digit input reaching the
checksum stage. -/
theorem c4_witness :
    evaluate (("2881121027".toList)) = .error .InvalidInput ∧
    evaluate (("272676S6021".toList)) = .error .InvalidCharacters ∧
    (evaluate (("79888245131".toList)) = .error .InvalidDocument ∨
      ∃ n, evaluate (("79888245131".toList)) = .ok n) :=
  ⟨(c4_error_priority (("2881121027".toList))).1 (by rfl),
   (c4_error_priority (("272676S6021".toList))).2.1 (by rfl) (by rfl),
   (c4_error_priority (("79888245131".toList))).2.2 (by rfl)⟩

/-- C5: for 14-byte inputs the dispatch is mask-based: a CPF-mask match is
sanitized and validated as a CPF (after the uniformity check), a non-match
is treated as a sanitized 14-digit CNPJ, where any non-digit character
yields `InvalidCharacters`; an 18-byte input failing the CNPJ mask yields
`InvalidCharacters`. -/
theorem c5_length_dispatch (cs : List Char) :
    (byteLen cs = 14 → matchesMask CPF_MASK cs = true →
      evaluate cs =
        (if all_equal (to_integer_vector_sanitizing cs) = false then
          (validate_cpf (to_integer_vector_sanitizing cs)).map
            (fun _ => to_integer_vector_sanitizing cs)
        else .error .InvalidDocument)) ∧
    (byteLen cs = 14 → matchesMask CPF_MASK cs = false →
      evaluate cs =
        (if (to_integer_vector cs).length = 14 then
          (validate_cnpj (to_integer_vector cs)).map
            (fun _ => to_integer_vector cs)
        else .error .InvalidCharacters)) ∧
    (byteLen cs = 14 → matchesMask CPF_MASK cs = false →
      (∃ c ∈ cs, c.isDigit = false) →
      evaluate cs = .error .InvalidCharacters) ∧
    (byteLen cs = 18 → matchesMask CNPJ_MASK cs = false →
      evaluate cs = .error .InvalidCharacters) := by
  refine ⟨?_, ?_, ?_, ?_⟩
  · intro h14 hm
    simp [evaluate, SANITIZED_CPF_SIZE, FORMATTED_CPF_AND_SANITIZED_CNPJ_SIZE,
      h14, hm]
  · intro h14 hm
    simp [evaluate, SANITIZED_CPF_SIZE, FORMATTED_CPF_AND_SANITIZED_CNPJ_SIZE,
      h14, hm]
  · intro h14 hm hex
    have h1 := strict_lt_of_nondigit hex
    have h2 := byteLen_ge_length cs
    have hlen : ¬(to_integer_vector cs).length = 14 := by omega
    simp [evaluate, SANITIZED_CPF_SIZE, FORMATTED_CPF_AND_SANITIZED_CNPJ_SIZE,
      h14, hm, hlen]
  · intro h18 hm
    simp [evaluate, SANITIZED_CPF_SIZE, FORMATTED_CPF_AND_SANITIZED_CNPJ_SIZE,
      FORMATTED_CNPJ_SIZE, h18, hm]

/-- Witness for C5: a 14-byte sanitized CNPJ candidate with a bad character,
an 18-byte input failing the CNPJ mask, and a mask-matching formatted CPF. -/
theorem c5_witness :
    evaluate (("896S4922000126".toList)) = .error .InvalidCharacters ∧
    evaluate (("66.114-935/0001-07".toList)) = .error .InvalidCharacters ∧
    evaluate (("288.111.210-27".toList)) = .ok [2,8,8,1,1,1,2,1,0,2,7] := by
  refine ⟨(c5_length_dispatch (("896S4922000126".toList))).2.2.1
      (by rfl) (by rfl) (by decide),
    (c5_length_dispatch (("66.114-935/0001-07".toList))).2.2.2
      (by rfl) (by rfl), ?_⟩
  have h := (c5_length_dispatch (("288.111.210-27".toList))).1 (by rfl) (by rfl)
  rw [h]
  rfl

end BrDoc

namespace BrDoc

/-! ### C9: the checked semantics never panics -/

theorem all_equal_checked_eq {n : List Nat} (h : n ≠ []) :
    all_equal_checked n = some (all_equal n) := by
  cases n with
  | nil => exact absurd rfl h
  | cons x xs => rfl

theorem validate_cpf_checked_eq {n : List Nat} (h : 9 ≤ n.length) :
    validate_cpf_checked n = some (validate_cpf n) := by
  rw [validate_cpf_checked, if_pos ⟨h, by omega⟩]

theorem validate_cnpj_checked_eq {n : List Nat} (h : 12 ≤ n.length) :
    validate_cnpj_checked n = some (validate_cnpj n) := by
  rw [validate_cnpj_checked, if_pos ⟨h, by omega⟩]

theorem numbers_to_string_checked_eq {n : List Nat} (h : ∀ d ∈ n, d < 10) :
    numbers_to_string_checked n = some (numbers_to_string n) := by
  rw [numbers_to_string_checked, if_pos h]

theorem evaluate_checked_eq (cs : List Char) :
    evaluate_checked cs = some (evaluate cs) := by
  by_cases b11 : byteLen cs = 11
  · by_cases hl : (to_integer_vector cs).length = 11
    · have hne : to_integer_vector cs ≠ [] := by
        intro hnil
        rw [hnil] at hl
        simp at hl
      by_cases hae : all_equal (to_integer_vector cs) = false
      · simp [evaluate_checked, evaluate, SANITIZED_CPF_SIZE, b11, hl, hae,
          all_equal_checked_eq hne,
          validate_cpf_checked_eq (show 9 ≤ (to_integer_vector cs).length by omega)]
      · simp [evaluate_checked, evaluate, SANITIZED_CPF_SIZE, b11, hl, hae,
          all_equal_checked_eq hne]
    · simp [evaluate_checked, evaluate, SANITIZED_CPF_SIZE, b11, hl]
  · by_cases b14 : byteLen cs = 14
    · by_cases hm : matchesMask CPF_MASK cs = true
      · have hl := cpf_mask_sanitize_length hm
        have hne : to_integer_vector_sanitizing cs ≠ [] := by
          intro hnil
          rw [hnil] at hl
          simp at hl
        by_cases hae : all_equal (to_integer_vector_sanitizing cs) = false
        · simp [evaluate_checked, evaluate, SANITIZED_CPF_SIZE,
            FORMATTED_CPF_AND_SANITIZED_CNPJ_SIZE, b11, b14, hm, hae,
            all_equal_checked_eq hne,
            validate_cpf_checked_eq
              (show 9 ≤ (to_integer_vector_sanitizing cs).length by omega)]
        · simp [evaluate_checked, evaluate, SANITIZED_CPF_SIZE,
            FORMATTED_CPF_AND_SANITIZED_CNPJ_SIZE, b11, b14, hm, hae,
            all_equal_checked_eq hne]
      · by_cases hl : (to_integer_vector cs).length = 14
        · simp [evaluate_checked, evaluate, SANITIZED_CPF_SIZE,
            FORMATTED_CPF_AND_SANITIZED_CNPJ_SIZE, b11, b14, hm, hl,
            validate_cnpj_checked_eq
              (show 12 ≤ (to_integer_vector cs).length by omega)]
        · simp [evaluate_checked, evaluate, SANITIZED_CPF_SIZE,
            FORMATTED_CPF_AND_SANITIZED_CNPJ_SIZE, b11, b14, hm, hl]
    · by_cases b18 : byteLen cs = 18
      · by_cases hm : matchesMask CNPJ_MASK cs = true
        · have hl := cnpj_mask_sanitize_length hm
          simp [evaluate_checked, evaluate, SANITIZED_CPF_SIZE,
            FORMATTED_CPF_AND_SANITIZED_CNPJ_SIZE, FORMATTED_CNPJ_SIZE,
            b11, b14, b18, hm, hl,
            validate_cnpj_checked_eq
              (show 12 ≤ (to_integer_vector_sanitizing cs).length by omega)]
        · simp [evaluate_checked, evaluate, SANITIZED_CPF_SIZE,
            FORMATTED_CPF_AND_SANITIZED_CNPJ_SIZE, FORMATTED_CNPJ_SIZE,
            b11, b14, b18, hm]
      · simp [evaluate_checked, evaluate, SANITIZED_CPF_SIZE,
          FORMATTED_CPF_AND_SANITIZED_CNPJ_SIZE, FORMATTED_CNPJ_SIZE,
          b11, b14, b18]

/-- C9: `validate` and `parse` are total and never panic: running `evaluate`
and `parse` with every partial operation of the source modelled as a checked
(`Option`-returning) step always yields `some` of the unchecked result —
`all_equal`'s `n[0]` indexing, the checksum validators' slicing/indexing and
the `unwrap` in `numbers_to_string` are all within bounds on every path. -/
theorem c9_no_panic (cs : List Char) :
    evaluate_checked cs = some (evaluate cs) ∧
      parse_checked cs = some (parse cs) := by
  refine ⟨evaluate_checked_eq cs, ?_⟩
  rw [parse_checked, evaluate_checked_eq cs]
  rcases he : evaluate cs with e | n
  · simp [parse, he]
  · have hd := (evaluate_ok_shape he).2.2
    simp only [parse, he, numbers_to_string_checked_eq hd]
    split_ifs <;> rfl

end BrDoc

namespace BrDoc

/-! ### C10: byte-length classification -/

theorem isDigit_utf8Size {c : Char} (h : c.isDigit = true) : c.utf8Size = 1 := by
  simp [Char.isDigit] at h
  have hle : c.val ≤ UInt32.ofNatCore 0x7F (by decide) :=
    UInt32.le_trans h.2 (by decide)
  simp [Char.utf8Size, hle]
  intro hgt
  exact absurd hle (UInt32.not_le.mpr hgt)

theorem byteLen_of_small_sizes {cs : List Char}
    (h : ∀ c ∈ cs, c.utf8Size ≤ 2) :
    byteLen cs = cs.length + (cs.filter (fun c => c.utf8Size = 2)).length := by
  induction cs with
  | nil => rfl
  | cons c cs ih =>
    have hc := h c (List.mem_cons_self c cs)
    have hpos := c.utf8Size_pos
    have hrest := ih (fun x hx => h x (List.mem_cons_of_mem c hx))
    by_cases h2 : c.utf8Size = 2
    · simp [byteLen, List.filter_cons, h2] at *
      omega
    · have h1 : c.utf8Size = 1 := by omega
      simp [byteLen, List.filter_cons, h1, h2] at *
      omega

theorem length_filter_digit_split (cs : List Char) :
    (cs.filter (fun c => c.isDigit)).length +
      (cs.filter (fun c => !c.isDigit)).length = cs.length := by
  induction cs with
  | nil => rfl
  | cons c cs ih =>
    by_cases hd : c.isDigit = true
    · simp [List.filter_cons, hd]
      omega
    · simp only [Bool.not_eq_true] at hd
      simp [List.filter_cons, hd]
      omega

theorem byteLen_digit_split {cs : List Char}
    (h : ∀ c ∈ cs, c.isDigit = false → c.utf8Size = 2) :
    byteLen cs = (cs.filter (fun c => c.isDigit)).length +
      2 * (cs.filter (fun c => !c.isDigit)).length := by
  induction cs with
  | nil => rfl
  | cons c cs ih =>
    have hrest := ih (fun x hx => h x (List.mem_cons_of_mem c hx))
    by_cases hd : c.isDigit = true
    · have h1 := isDigit_utf8Size hd
      simp [byteLen, List.filter_cons, hd, h1] at *
      omega
    · simp only [Bool.not_eq_true] at hd
      have h2 := h c (List.mem_cons_self c cs) hd
      simp [byteLen, List.filter_cons, hd, h2] at *
      omega

/-- C10: length classification counts UTF-8 bytes, not characters: an
11-character input with exactly one 2-byte character has byte length 12 and
is rejected as `InvalidInput`, while a 10-character input of 9 digits plus
one 2-byte non-digit character has byte length 11, is classified as a
sanitized CPF candidate and rejected as `InvalidCharacters`. -/
theorem c10_byte_length_classification (cs : List Char) :
    (cs.length = 11 → (∀ c ∈ cs, c.utf8Size ≤ 2) →
      (cs.filter (fun c => c.utf8Size = 2)).length = 1 →
      byteLen cs = 12 ∧ evaluate cs = .error .InvalidInput) ∧
    (cs.length = 10 → (cs.filter (fun c => c.isDigit)).length = 9 →
      (∀ c ∈ cs, c.isDigit = false → c.utf8Size = 2) →
      (∃ c ∈ cs, c.isDigit = false) →
      byteLen cs = 11 ∧ evaluate cs = .error .InvalidCharacters) := by
  constructor
  · intro hlen hsz hone
    have hbl : byteLen cs = 12 := by
      rw [byteLen_of_small_sizes hsz, hlen, hone]
    refine ⟨hbl, ?_⟩
    simp [evaluate, SANITIZED_CPF_SIZE, FORMATTED_CPF_AND_SANITIZED_CNPJ_SIZE,
      FORMATTED_CNPJ_SIZE, hbl]
  · intro hlen hdig hnd hex
    have hsplit := length_filter_digit_split cs
    have hbl : byteLen cs = 11 := by
      rw [byteLen_digit_split hnd, hdig]
      omega
    refine ⟨hbl, ?_⟩
    have h1 := strict_lt_of_nondigit hex
    have hne : ¬(to_integer_vector cs).length = 11 := by omega
    simp [evaluate, SANITIZED_CPF_SIZE, hbl, hne]

/-- Witness for C10: `"0123456789é"` (11 characters, 12 bytes) and
`"123456789é"` (10 characters, 9 digits plus a 2-byte non-digit, 11 bytes). -/
theorem c10_witness :
    byteLen (("0123456789é".toList)) = 12 ∧
    evaluate (("0123456789é".toList)) = .error .InvalidInput ∧
    byteLen (("123456789é".toList)) = 11 ∧
    evaluate (("123456789é".toList)) = .error .InvalidCharacters := by
  have h1 := (c10_byte_length_classification (("0123456789é".toList))).1
    (by rfl) (by decide) (by rfl)
  have h2 := (c10_byte_length_classification (("123456789é".toList))).2
    (by rfl) (by rfl) (by decide) (by decide)
  exact ⟨h1.1, h1.2, h2.1, h2.2⟩

end BrDoc
